import Mathlib

/-
Verification of the conversation-session backend (`backend/app`):
domain value objects and entities, the file-backed repository with its
in-process cache, and the application-service layer, embedded shallowly.

Modelling conventions:
* Python `ValueError` / `AttributeError` are the `PyErr` inductive; a Python
  method that can raise is embedded as a function into `Except PyErr _`.
* `datetime` instants are modelled as `Nat`; `isoformat`/`fromisoformat` on a
  `datetime` form a lossless bijection at the modelled precision, so the
  serialized timestamp field stores the instant itself.  The `Timestamp`
  dataclass wrapper is kept as a structure, because the code in
  `application/services.py` calls `.isoformat()` on the wrapper (which has no
  such method) while `infrastructure/services.py` correctly calls
  `.value.isoformat()`.
* `uuid` generation and `Timestamp.now()` are threaded explicitly: aggregate
  methods take the fresh id and the current instant as arguments, and the
  application layer threads a generator counter and a clock in `AppState`.
* Python dict values of heterogeneous type (`Dict[str, Any]`) are modelled by
  the small dynamic value type `PyVal`; dicts are insertion-ordered
  association lists, as Python dicts are.
* Python objects are mutable and aliased: the session object returned by the
  domain service `get_session` is the very object stored in its cache, so a
  later in-place mutation is visible through the cache.  The embedding makes
  this explicit by writing the mutated session back into the cache exactly
  where the Python control flow mutates a cached object.
-/

/-- Python exception values raised by the modelled code. -/
inductive PyErr where
  | valueError (msg : String)
  | attributeError (msg : String)
deriving DecidableEq, Repr

/-- Message text of a Python exception, as produced by `str(e)`. -/
def pyErrMsg : PyErr → String
  | .valueError m => m
  | .attributeError m => m

/-- Dynamic Python values stored in `Dict[str, Any]` payloads. -/
inductive PyVal where
  | str (s : String)
  | int (n : Int)
  | bool (b : Bool)
  | none
deriving DecidableEq, Repr

/-- An insertion-ordered Python dict with string keys. -/
abbrev PyDict := List (String × PyVal)

/-- Dict lookup (`d[k]` / `d.get(k)`), first matching key. -/
def dictLookup {α : Type} : List (String × α) → String → Option α
  | [], _ => Option.none
  | (k', v) :: rest, k => if k' = k then some v else dictLookup rest k

/-- Dict update `d[k] = v`: replaces in place if the key exists, else appends,
matching Python dict insertion-order semantics. -/
def dictSet {α : Type} : List (String × α) → String → α → List (String × α)
  | [], k, v => [(k, v)]
  | (k', v') :: rest, k, v =>
      if k' = k then (k, v) :: rest else (k', v') :: dictSet rest k v

/-- Python `d.get(k, default)` over a `PyDict`. -/
def dictGetD (d : PyDict) (k : String) (default : PyVal) : PyVal :=
  match dictLookup d k with
  | some v => v
  | Option.none => default

/- ===== Value objects (domain/value_objects.py) ===== -/

/-- Python `s.strip()` is falsy exactly when every character of `s` is
whitespace (including `s = ""`). -/
def pyStripFalsy (s : String) : Bool := s.data.all Char.isWhitespace

/-- ConversationId `__post_init__`: the wrapped string must be non-empty.
Also covers `MessageId`, which has the identical check. -/
def mkConversationId (value : String) : Except PyErr String :=
  if value = "" then .error (.valueError "ConversationId cannot be empty")
  else .ok value

/-- Content `__post_init__`: rejects empty or all-whitespace strings and
strings longer than 10000 characters. -/
def Content.validate (value : String) : Except PyErr Unit :=
  if value = "" ∨ pyStripFalsy value = true then
    .error (.valueError "Content cannot be empty")
  else if value.length > 10000 then
    .error (.valueError "Content too long")
  else .ok ()

/-- The role whitelist in Role `__post_init__`. -/
def validRoles : List String := ["user", "assistant", "system"]

/-- Role `__post_init__`. -/
def Role.validate (value : String) : Except PyErr Unit :=
  if value ∈ validRoles then .ok ()
  else .error (.valueError
    "Role must be one of: [\x27user\x27, \x27assistant\x27, \x27system\x27]")

/-- The status whitelist in Status `__post_init__` — note that the source
list does NOT contain the string stopped. -/
def validStatuses : List String :=
  ["pending", "running", "completed", "failed", "cancelled"]

/-- Status `__post_init__`. -/
def Status.validate (value : String) : Except PyErr Unit :=
  if value ∈ validStatuses then .ok ()
  else .error (.valueError
    "Status must be one of: [\x27pending\x27, \x27running\x27, \x27completed\x27, \x27failed\x27, \x27cancelled\x27]")

/-- The Timestamp dataclass: a frozen wrapper around a datetime instant. -/
structure Timestamp where
  value : Nat
deriving DecidableEq, Repr

/-- A Python call `t.isoformat()` on a `Timestamp` wrapper raises
`AttributeError`: the dataclass defines no `isoformat` method — the datetime
lives one level down, in `t.value`.  This models the dynamic attribute
lookup failing. -/
def Timestamp.isoformat (_ : Timestamp) : Except PyErr String :=
  .error (.attributeError
    "\x27Timestamp\x27 object has no attribute \x27isoformat\x27")

/- ===== Entities (domain/entities.py) ===== -/

/-- Message entity, with value objects flattened to their wrapped values. -/
structure Message where
  message_id : String
  conversation_id : String
  role : String
  content : String
  timestamp : Timestamp
  metadata : PyDict
deriving DecidableEq, Repr

/-- Constructing a `Message` evaluates `Role(role)` then `Content(content)`
(keyword-argument order); `__post_init__`'s truthiness check on the
`ConversationId` object never fires, because a dataclass instance is always
truthy. -/
def Message.mkChecked (message_id conversation_id role content : String)
    (timestamp : Timestamp) (metadata : PyDict) : Except PyErr Message := do
  let _ ← Role.validate role
  let _ ← Content.validate content
  .ok ⟨message_id, conversation_id, role, content, timestamp, metadata⟩

/-- The event-type whitelist in Event `__post_init__`: seven types only. -/
def validEventTypes : List String :=
  ["message", "title", "plan", "step", "tool", "error", "done"]

/-- Event entity. -/
structure Event where
  event_id : String
  session_id : String
  event_type : String
  data : PyDict
  timestamp : Timestamp
deriving DecidableEq, Repr

/-- Event `__post_init__`: validates the event type against
`validEventTypes`. -/
def Event.mkChecked (event_id session_id event_type : String) (data : PyDict)
    (timestamp : Timestamp) : Except PyErr Event :=
  if event_type ∈ validEventTypes then
    .ok ⟨event_id, session_id, event_type, data, timestamp⟩
  else
    .error (.valueError
      "Event type must be one of: [\x27message\x27, \x27title\x27, \x27plan\x27, \x27step\x27, \x27tool\x27, \x27error\x27, \x27done\x27]")

/-- One console entry of a shell session. -/
structure ConsoleEntry where
  ps1 : String
  command : String
  output : String
deriving DecidableEq, Repr

/-- ShellSession entity. -/
structure ShellSession where
  shell_session_id : String
  conversation_id : String
  session_id : Option String
  console : List ConsoleEntry
  created_at : Timestamp
  last_updated : Timestamp
deriving DecidableEq, Repr

/-- FileOperation entity. -/
structure FileOperation where
  file_path : String
  conversation_id : String
  operation_type : String
  content : Option String
  timestamp : Timestamp
deriving DecidableEq, Repr

/-- ConversationSession aggregate root. -/
structure ConversationSession where
  session_id : String
  title : String
  user_id : Option String := Option.none
  messages : List Message := []
  events : List Event := []
  status : String := "pending"
  shell_sessions : List ShellSession := []
  file_operations : List FileOperation := []
  created_at : Timestamp
  last_updated : Timestamp
  unread_message_count : Int := 0
deriving DecidableEq, Repr

/-- `ConversationSession.add_message`: builds the `Message` (validating role
then content), appends it, refreshes `last_updated`.  On a validation error
the exception propagates and the aggregate is unchanged.  The fresh
`MessageId` and the current instant are passed in explicitly. -/
def ConversationSession.add_message (s : ConversationSession)
    (role content : String) (metadata : PyDict) (msgId : String) (now : Nat) :
    Except PyErr (ConversationSession × Message) := do
  let m ← Message.mkChecked msgId s.session_id role content ⟨now⟩ metadata
  .ok ({ s with messages := s.messages ++ [m], last_updated := ⟨now⟩ }, m)

/-- `ConversationSession.add_event`: builds the `Event` (validating the event
type), appends it, refreshes `last_updated`. -/
def ConversationSession.add_event (s : ConversationSession)
    (event_type : String) (data : PyDict) (eventId : String) (now : Nat) :
    Except PyErr (ConversationSession × Event) := do
  let e ← Event.mkChecked eventId s.session_id event_type data ⟨now⟩
  .ok ({ s with events := s.events ++ [e], last_updated := ⟨now⟩ }, e)

/-- `ConversationSession.update_status`: constructs `Status(new_status)`
(which validates) and overwrites, refreshing `last_updated`. -/
def ConversationSession.update_status (s : ConversationSession)
    (new_status : String) (now : Nat) : Except PyErr ConversationSession := do
  let _ ← Status.validate new_status
  .ok { s with status := new_status, last_updated := ⟨now⟩ }

/- ===== Serialized session records (infrastructure/services.py) ===== -/

/-- One serialized message inside the sessions document.  Note the source
does not serialize `conversation_id`; it is reconstructed from the owning
session on load. -/
structure MessageRecord where
  message_id : String
  role : String
  content : String
  timestamp : Nat
  metadata : PyDict
deriving DecidableEq, Repr

/-- One serialized event. -/
structure EventRecord where
  event_id : String
  event_type : String
  data : PyDict
  timestamp : Nat
deriving DecidableEq, Repr

/-- One serialized shell session. -/
structure ShellSessionRecord where
  shell_session_id : String
  console : List ConsoleEntry
  created_at : Nat
  last_updated : Nat
deriving DecidableEq, Repr

/-- One serialized file operation. -/
structure FileOperationRecord where
  file_path : String
  operation_type : String
  content : Option String
  timestamp : Nat
deriving DecidableEq, Repr

/-- One session record of the shared sessions.json document. -/
structure SessionRecord where
  session_id : String
  title : String
  status : String
  messages : List MessageRecord
  events : List EventRecord
  shell_sessions : List ShellSessionRecord
  file_operations : List FileOperationRecord
  created_at : Nat
  last_updated : Nat
  unread_message_count : Int
deriving DecidableEq, Repr

/-- The parsed content of the shared sessions.json document: an
insertion-ordered map from session id to session record. -/
abbrev Store := List (String × SessionRecord)

/-- Serialization of one message as written by `save_session`
(`msg.timestamp.value.isoformat()` goes through the wrapped datetime). -/
def serializeMessage (m : Message) : MessageRecord :=
  ⟨m.message_id, m.role, m.content, m.timestamp.value, m.metadata⟩

/-- Serialization of one event as written by `save_session`. -/
def serializeEvent (e : Event) : EventRecord :=
  ⟨e.event_id, e.event_type, e.data, e.timestamp.value⟩

/-- Serialization of one shell session as written by `save_session`.  The
optional `session_id` field of the entity is not serialized. -/
def serializeShellSession (sh : ShellSession) : ShellSessionRecord :=
  ⟨sh.shell_session_id, sh.console, sh.created_at.value, sh.last_updated.value⟩

/-- Serialization of one file operation as written by `save_session`. -/
def serializeFileOperation (f : FileOperation) : FileOperationRecord :=
  ⟨f.file_path, f.operation_type, f.content, f.timestamp.value⟩

/-- The whole-session record built by `save_session`.  Note `user_id` is not
serialized. -/
def serializeSession (s : ConversationSession) : SessionRecord :=
  ⟨s.session_id, s.title, s.status,
   s.messages.map serializeMessage,
   s.events.map serializeEvent,
   s.shell_sessions.map serializeShellSession,
   s.file_operations.map serializeFileOperation,
   s.created_at.value, s.last_updated.value, s.unread_message_count⟩

/-- `FileConversationRepository.save_session`: read the whole document, set
the record for `session.session_id`, rewrite the whole document. -/
def FileConversationRepository.save_session (store : Store)
    (s : ConversationSession) : Store :=
  dictSet store s.session_id (serializeSession s)

/-- Reconstruction of one message on load: `Role` and `Content` re-validate;
the raw serialized `message_id` string is passed through (the source passes
the raw string where a `MessageId` wrapper would be expected — invisible here
because identifiers are flattened to strings). -/
def loadMessage (sid : String) (r : MessageRecord) : Except PyErr Message := do
  let _ ← Role.validate r.role
  let _ ← Content.validate r.content
  .ok ⟨r.message_id, sid, r.role, r.content, ⟨r.timestamp⟩, r.metadata⟩

/-- Python appends reconstructed messages one by one inside a for loop,
propagating the first validation error. -/
def loadMessages (sid : String) :
    List MessageRecord → Except PyErr (List Message)
  | [] => .ok []
  | r :: rs => do
      let m ← loadMessage sid r
      let ms ← loadMessages sid rs
      .ok (m :: ms)

/-- Reconstruction of one event on load: `Event.__post_init__` re-validates
the event type. -/
def loadEvent (sid : String) (r : EventRecord) : Except PyErr Event :=
  Event.mkChecked r.event_id sid r.event_type r.data ⟨r.timestamp⟩

/-- The event-reconstruction for loop. -/
def loadEvents (sid : String) :
    List EventRecord → Except PyErr (List Event)
  | [] => .ok []
  | r :: rs => do
      let e ← loadEvent sid r
      let es ← loadEvents sid rs
      .ok (e :: es)

/-- Reconstruction of one shell session on load: no validation; the entity's
optional `session_id` field defaults to `None`. -/
def loadShellSession (sid : String) (r : ShellSessionRecord) : ShellSession :=
  ⟨r.shell_session_id, sid, Option.none, r.console,
   ⟨r.created_at⟩, ⟨r.last_updated⟩⟩

/-- `FileConversationRepository.load_session`: look the id up in the shared
document and rebuild the aggregate.  Faithful to the source:
* the session is constructed with only `session_id`, `title`, `status` and
  `unread_message_count`, so `created_at`/`last_updated` take their
  dataclass defaults (`Timestamp.now()` at load time — the `now` argument);
* messages, events and shell sessions are rebuilt in that order;
* `file_operations` is never rebuilt: the loaded list stays empty. -/
def FileConversationRepository.load_session (store : Store) (sid : String)
    (now : Nat) : Except PyErr (Option ConversationSession) :=
  match dictLookup store sid with
  | Option.none => .ok Option.none
  | some data => do
      let sid' ← mkConversationId data.session_id
      let _ ← Status.validate data.status
      let msgs ← loadMessages sid' data.messages
      let evs ← loadEvents sid' data.events
      .ok (some
        { session_id := sid'
          title := data.title
          status := data.status
          unread_message_count := data.unread_message_count
          messages := msgs
          events := evs
          shell_sessions := data.shell_sessions.map (loadShellSession sid')
          file_operations := []
          created_at := ⟨now⟩
          last_updated := ⟨now⟩ })

/- ===== Domain service façade (ConversationRepositoryService) ===== -/

/-- State of a `ConversationRepositoryService`: the shared document plus the
in-process `_sessions_cache`. -/
structure RepoServiceState where
  store : Store
  cache : List (String × ConversationSession)
deriving DecidableEq, Repr

/-- `ConversationRepositoryService.create_session`: builds a fresh aggregate
with status pending, saves it, returns it without caching it. -/
def ConversationRepositoryService.create_session (st : RepoServiceState)
    (title : String) (freshId : String) (now : Nat) :
    Except PyErr (ConversationSession × RepoServiceState) := do
  let sid ← mkConversationId freshId
  let _ ← Status.validate "pending"
  let session : ConversationSession :=
    { session_id := sid, title := title, status := "pending",
      created_at := ⟨now⟩, last_updated := ⟨now⟩ }
  .ok (session,
    { st with store := FileConversationRepository.save_session st.store session })

/-- `ConversationRepositoryService.get_session`: cache-first; on a miss, load
from the store and populate the cache. -/
def ConversationRepositoryService.get_session (st : RepoServiceState)
    (sid : String) (now : Nat) :
    Except PyErr (Option ConversationSession × RepoServiceState) :=
  match dictLookup st.cache sid with
  | some s => .ok (some s, st)
  | Option.none => do
      let os ← FileConversationRepository.load_session st.store sid now
      match os with
      | some s => .ok (some s, { st with cache := dictSet st.cache sid s })
      | Option.none => .ok (Option.none, st)

/-- `ConversationRepositoryService.stop_session`: load (cache-first), mutate
status to stopped, persist, refresh the cache; `False` when absent.  The
`update_status` call constructs `Status("stopped")`, whose validation is what
it is — no exception handling here, errors propagate to the caller. -/
def ConversationRepositoryService.stop_session (st : RepoServiceState)
    (sid : String) (now : Nat) : Except PyErr (Bool × RepoServiceState) := do
  let (os, st1) ← ConversationRepositoryService.get_session st sid now
  match os with
  | some session => do
      let session' ← session.update_status "stopped" now
      let store' := FileConversationRepository.save_session st1.store session'
      .ok (true, { store := store', cache := dictSet st1.cache sid session' })
  | Option.none => .ok (false, st1)

/- ===== Event management service (EventManagementService) ===== -/

/-- `EventManagementService.create_event`: tries `session.add_event` and
swallows any exception, printing and returning `False`; no event handlers
are registered at wiring time, so the handler loop is a no-op.  Returns the
success flag together with the (possibly mutated) session object. -/
def EventManagementService.create_event (session : ConversationSession)
    (event_type : String) (data : PyDict) (eventId : String) (now : Nat) :
    Bool × ConversationSession :=
  match session.add_event event_type data eventId now with
  | .ok (s', _) => (true, s')
  | .error _ => (false, session)

/- ===== Application service layer (application/services.py) ===== -/

/-- Uniform response envelope with a typed data payload. -/
structure Resp (α : Type) where
  code : Int
  msg : String
  data : Option α
deriving DecidableEq, Repr

/-- Process state threaded through application operations: the repository
service state, the uuid supply counter, and the clock. -/
structure AppState where
  repo : RepoServiceState
  gen : Nat
  clock : Nat
deriving DecidableEq, Repr

/-- Fresh uuid strings, indexed by the supply counter; never empty. -/
def genId (n : Nat) : String := "uuid-" ++ toString n

/-- Data payload of CreateSession. -/
structure CreateSessionData where
  session_id : String
deriving DecidableEq, Repr

/-- `ConversationApplicationService.create_session`: create through the
domain service, then fire a session_created event on the returned aggregate.
The event is attempted on the in-memory object only — the object is neither
cached nor re-saved, and `add_event` in fact rejects the type, so the event
is silently dropped either way. -/
def ConversationApplicationService.create_session (st : AppState)
    (title : String) : Resp CreateSessionData × AppState :=
  match ConversationRepositoryService.create_session st.repo title
      (genId st.gen) st.clock with
  | .error e =>
      ({ code := 500, msg := "Failed to create session: " ++ pyErrMsg e,
         data := Option.none },
       { st with gen := st.gen + 1, clock := st.clock + 1 })
  | .ok (session, repo') =>
      let _ := EventManagementService.create_event session "session_created"
        [("title", .str title)] (genId (st.gen + 1)) st.clock
      ({ code := 0, msg := "success",
         data := some ⟨session.session_id⟩ },
       { st with repo := repo', gen := st.gen + 2, clock := st.clock + 1 })

/-- One event as serialized inside the GetSession response. -/
structure SerializedEvent where
  event_id : String
  event_type : String
  data : PyDict
  timestamp : String
deriving DecidableEq, Repr

/-- Event serialization in the application-layer `get_session`: the source
calls `event.timestamp.isoformat()` directly on the `Timestamp` wrapper. -/
def serializeEventApp (e : Event) : Except PyErr SerializedEvent := do
  let ts ← e.timestamp.isoformat
  .ok ⟨e.event_id, e.event_type, e.data, ts⟩

/-- The event-serialization list comprehension of `get_session`. -/
def serializeEventsApp : List Event → Except PyErr (List SerializedEvent)
  | [] => .ok []
  | e :: es => do
      let se ← serializeEventApp e
      let ses ← serializeEventsApp es
      .ok (se :: ses)

/-- Data payload of GetSession. -/
structure GetSessionData where
  session_id : String
  title : String
  events : List SerializedEvent
deriving DecidableEq, Repr

/-- `ConversationApplicationService.get_session`: validate the id, load
through the domain service (cache-first), then serialize the events; any
exception becomes a code-500 envelope.  Side effects performed before an
exception (cache population) are kept, as in Python. -/
def ConversationApplicationService.get_session (st : AppState) (sid : String) :
    Resp GetSessionData × AppState :=
  match mkConversationId sid with
  | .error e =>
      ({ code := 500, msg := "Failed to get session: " ++ pyErrMsg e,
         data := Option.none }, { st with clock := st.clock + 1 })
  | .ok _ =>
    match ConversationRepositoryService.get_session st.repo sid st.clock with
    | .error e =>
        ({ code := 500, msg := "Failed to get session: " ++ pyErrMsg e,
           data := Option.none }, { st with clock := st.clock + 1 })
    | .ok (Option.none, repo') =>
        ({ code := 404, msg := "Session not found", data := Option.none },
         { st with repo := repo', clock := st.clock + 1 })
    | .ok (some session, repo') =>
        match serializeEventsApp session.events with
        | .error e =>
            ({ code := 500, msg := "Failed to get session: " ++ pyErrMsg e,
               data := Option.none },
             { st with repo := repo', clock := st.clock + 1 })
        | .ok evs =>
            ({ code := 0, msg := "success",
               data := some ⟨session.session_id, session.title, evs⟩ },
             { st with repo := repo', clock := st.clock + 1 })

/-- The canned assistant reply of `_generate_ai_response`. -/
def generate_ai_response (user_message : String) : String :=
  "I understand you said: \x27" ++ user_message ++
    "\x27. How can I help you with tools like shell commands, file operations, or browser automation?"

/-- Data payload of SendMessage. -/
structure ChatData where
  response : String
  message_id : String
deriving DecidableEq, Repr

/-- PyVal of an optional string argument (`None` or a string). -/
def optStrVal : Option String → PyVal
  | Option.none => .none
  | some s => .str s

/-- `ConversationApplicationService.process_chat_message`: load (cache-first,
which makes the loaded object the cached object), append the user message,
fire a message_received event (swallowed: the type is rejected), generate the
canned reply, append the assistant message, and return code 0.  The source
never calls `save_session` here, so the store is untouched; the in-place
mutations are visible through the cache, which the embedding models by
writing the mutated session back into the cache entry. -/
def ConversationApplicationService.process_chat_message (st : AppState)
    (sid : String) (message : String) (ts : Int) (event_id : Option String) :
    Resp ChatData × AppState :=
  match mkConversationId sid with
  | .error e =>
      ({ code := 500, msg := "Failed to process chat: " ++ pyErrMsg e,
         data := Option.none }, { st with clock := st.clock + 1 })
  | .ok _ =>
    match ConversationRepositoryService.get_session st.repo sid st.clock with
    | .error e =>
        ({ code := 500, msg := "Failed to process chat: " ++ pyErrMsg e,
           data := Option.none }, { st with clock := st.clock + 1 })
    | .ok (Option.none, repo') =>
        ({ code := 404, msg := "Session not found", data := Option.none },
         { st with repo := repo', clock := st.clock + 1 })
    | .ok (some session, repo1) =>
      match session.add_message "user" message [] (genId st.gen) st.clock with
      | .error e =>
          ({ code := 500, msg := "Failed to process chat: " ++ pyErrMsg e,
             data := Option.none },
           { st with repo := repo1, gen := st.gen + 1, clock := st.clock + 1 })
      | .ok (session1, _userMsg) =>
        let (_, session2) := EventManagementService.create_event session1
          "message_received"
          [("message", .str message), ("timestamp", .int ts),
           ("event_id", optStrVal event_id)]
          (genId (st.gen + 1)) st.clock
        let response := generate_ai_response message
        match session2.add_message "assistant" response []
            (genId (st.gen + 2)) st.clock with
        | .error e =>
            ({ code := 500, msg := "Failed to process chat: " ++ pyErrMsg e,
               data := Option.none },
             { st with
                 repo := { repo1 with cache := dictSet repo1.cache sid session2 },
                 gen := st.gen + 3, clock := st.clock + 1 })
        | .ok (session3, assistantMsg) =>
            ({ code := 0, msg := "success",
               data := some ⟨response, assistantMsg.message_id⟩ },
             { st with
                 repo := { repo1 with cache := dictSet repo1.cache sid session3 },
                 gen := st.gen + 3, clock := st.clock + 1 })

/- ===== GetSessionHistory (application/query_handlers.py) ===== -/

/-- One history entry of the GetSessionHistory projection. -/
structure HistoryEntry where
  role : String
  content : PyVal
  timestamp : String
deriving DecidableEq, Repr

/-- Data payload of GetSessionHistory. -/
structure HistoryData where
  session_id : String
  title : String
  messages : List HistoryEntry
deriving DecidableEq, Repr

/-- The history-extraction loop: keep message_received / message_sent events,
map message_received to user and message_sent to assistant, take the content
from `data.get("content", "")` and the serialized timestamp. -/
def historyOfEvents (evs : List SerializedEvent) : List HistoryEntry :=
  evs.filterMap fun e =>
    if e.event_type = "message_received" ∨ e.event_type = "message_sent" then
      some ⟨(if e.event_type = "message_received" then "user" else "assistant"),
            dictGetD e.data "content" (.str ""), e.timestamp⟩
    else Option.none

/-- `GetSessionHistoryQueryHandler.handle`: delegate to the application
`get_session`, pass any non-zero envelope through unchanged, otherwise
project the serialized events into the history list. -/
def GetSessionHistoryQueryHandler.handle (st : AppState) (sid : String) :
    Resp HistoryData × AppState :=
  let (resp, st') := ConversationApplicationService.get_session st sid
  if resp.code ≠ 0 then
    ({ code := resp.code, msg := resp.msg, data := Option.none }, st')
  else
    match resp.data with
    | some d =>
        ({ code := 0, msg := "success",
           data := some ⟨d.session_id, d.title, historyOfEvents d.events⟩ },
         st')
    | Option.none =>
        ({ code := 500,
           msg := "Failed to get session history: \x27NoneType\x27 object is not subscriptable",
           data := Option.none }, st')

/- ===== Generic helpers ===== -/

deriving instance DecidableEq for Except

/-- Looking up a key right after setting it yields the stored value. -/
theorem dictLookup_dictSet_self {α : Type} (l : List (String × α)) (k : String)
    (v : α) : dictLookup (dictSet l k v) k = some v := by
  induction l with
  | nil => simp [dictSet, dictLookup]
  | cons hd tl ih =>
      obtain ⟨k', v'⟩ := hd
      by_cases h : k' = k
      · simp [dictSet, dictLookup, h]
      · simp [dictSet, dictLookup, h, ih]

/-- Generated uuid strings are never empty. -/
theorem genId_ne_empty (n : Nat) : genId n ≠ "" := by
  intro h
  have hlen := congrArg String.length h
  rw [genId, String.length_append] at hlen
  have h5 : "uuid-".length = 5 := rfl
  have h0 : "".length = 0 := rfl
  rw [h5, h0] at hlen
  omega

/-- The domain-service `get_session` never writes to the store. -/
theorem get_session_store_eq (st : RepoServiceState) (sid : String) (now : Nat)
    (os : Option ConversationSession) (st' : RepoServiceState)
    (h : ConversationRepositoryService.get_session st sid now = .ok (os, st')) :
    st'.store = st.store := by
  unfold ConversationRepositoryService.get_session at h
  cases hc : dictLookup st.cache sid with
  | some s => rw [hc] at h; cases h; rfl
  | none =>
      rw [hc] at h
      cases hl : FileConversationRepository.load_session st.store sid now with
      | error e => rw [hl] at h; simp [Bind.bind, Except.bind] at h
      | ok os' =>
          rw [hl] at h
          cases os' with
          | some s =>
              simp [Bind.bind, Except.bind] at h
              obtain ⟨h1, h2⟩ := h
              subst h2
              rfl
          | none =>
              simp [Bind.bind, Except.bind] at h
              obtain ⟨h1, h2⟩ := h
              subst h2
              rfl

/- ===== Validity: what Python guarantees by construction ===== -/

/-- A message whose value objects passed their construction-time checks. -/
def Message.Valid (m : Message) : Prop :=
  m.role ∈ validRoles ∧ Content.validate m.content = .ok ()

/-- An event whose type passed `Event.__post_init__`. -/
def Event.Valid (e : Event) : Prop := e.event_type ∈ validEventTypes

/-- A session built out of validated value objects, as every session produced
through the source constructors is: such a session serializes to a record
that deserializes without error. -/
def ConversationSession.Valid (s : ConversationSession) : Prop :=
  s.session_id ≠ "" ∧ s.status ∈ validStatuses ∧
    (∀ m ∈ s.messages, m.Valid) ∧ (∀ e ∈ s.events, e.Valid)

instance (m : Message) : Decidable m.Valid := by
  unfold Message.Valid; infer_instance

instance (e : Event) : Decidable e.Valid := by
  unfold Event.Valid; infer_instance

instance (s : ConversationSession) : Decidable s.Valid := by
  unfold ConversationSession.Valid; infer_instance

/- ===== Round-trip reconstruction shapes ===== -/

/-- What one message becomes after a save/load round trip: identical except
that `conversation_id` is re-pointed at the owning session. -/
def reloadMessage (sid : String) (m : Message) : Message :=
  ⟨m.message_id, sid, m.role, m.content, m.timestamp, m.metadata⟩

/-- What one event becomes after a save/load round trip. -/
def reloadEvent (sid : String) (e : Event) : Event :=
  ⟨e.event_id, sid, e.event_type, e.data, e.timestamp⟩

/-- What one shell session becomes after a save/load round trip: the optional
`session_id` field is reset to `None` (it is not serialized). -/
def reloadShellSession (sid : String) (sh : ShellSession) : ShellSession :=
  ⟨sh.shell_session_id, sid, Option.none, sh.console, sh.created_at,
   sh.last_updated⟩

/-- The full aggregate produced by loading a freshly saved session:
messages/events/shell sessions rebuilt, `file_operations` dropped,
`created_at`/`last_updated` reset to load time. -/
def reloadSession (s : ConversationSession) (now : Nat) : ConversationSession :=
  { session_id := s.session_id
    title := s.title
    status := s.status
    unread_message_count := s.unread_message_count
    messages := s.messages.map (reloadMessage s.session_id)
    events := s.events.map (reloadEvent s.session_id)
    shell_sessions := s.shell_sessions.map (reloadShellSession s.session_id)
    file_operations := []
    created_at := ⟨now⟩
    last_updated := ⟨now⟩ }

/-- Loading one serialized message succeeds and reproduces it when it was
valid. -/
theorem loadMessage_serializeMessage (sid : String) (m : Message)
    (h : m.Valid) :
    loadMessage sid (serializeMessage m) = .ok (reloadMessage sid m) := by
  obtain ⟨h1, h2⟩ := h
  simp [loadMessage, serializeMessage, reloadMessage, Role.validate, h1, h2,
    Bind.bind, Except.bind]

/-- Loading a list of serialized valid messages reproduces them in order. -/
theorem loadMessages_serialize (sid : String) (ms : List Message)
    (h : ∀ m ∈ ms, m.Valid) :
    loadMessages sid (ms.map serializeMessage) =
      .ok (ms.map (reloadMessage sid)) := by
  induction ms with
  | nil => rfl
  | cons m rest ih =>
      have hm : m.Valid := h m (List.mem_cons_self m rest)
      have hrest := ih fun x hx => h x (List.mem_cons_of_mem m hx)
      simp [loadMessages, loadMessage_serializeMessage sid m hm, hrest,
        Bind.bind, Except.bind]

/-- Loading one serialized event succeeds and reproduces it when it was
valid. -/
theorem loadEvent_serializeEvent (sid : String) (e : Event) (h : e.Valid) :
    loadEvent sid (serializeEvent e) = .ok (reloadEvent sid e) := by
  have h' : e.event_type ∈ validEventTypes := h
  simp [loadEvent, serializeEvent, reloadEvent, Event.mkChecked, h']

/-- Loading a list of serialized valid events reproduces them in order. -/
theorem loadEvents_serialize (sid : String) (es : List Event)
    (h : ∀ e ∈ es, e.Valid) :
    loadEvents sid (es.map serializeEvent) = .ok (es.map (reloadEvent sid)) := by
  induction es with
  | nil => rfl
  | cons e rest ih =>
      have he : e.Valid := h e (List.mem_cons_self e rest)
      have hrest := ih fun x hx => h x (List.mem_cons_of_mem e hx)
      simp [loadEvents, loadEvent_serializeEvent sid e he, hrest,
        Bind.bind, Except.bind]

/-- Loading a session immediately after saving it reconstructs exactly
`reloadSession`. -/
theorem load_after_save (store : Store) (s : ConversationSession) (now : Nat)
    (hv : s.Valid) :
    FileConversationRepository.load_session
        (FileConversationRepository.save_session store s) s.session_id now =
      .ok (some (reloadSession s now)) := by
  obtain ⟨hid, hst, hms, hes⟩ := hv
  unfold FileConversationRepository.load_session
    FileConversationRepository.save_session
  rw [dictLookup_dictSet_self]
  simp [serializeSession, mkConversationId, hid, Status.validate, hst,
    loadMessages_serialize s.session_id s.messages hms,
    loadEvents_serialize s.session_id s.events hes,
    reloadSession, loadShellSession, reloadShellSession, serializeShellSession,
    Bind.bind, Except.bind, List.map_map, Function.comp]

/- ===== Concrete fixtures ===== -/

/-- A fresh, empty session used as a concrete input. -/
def sessA : ConversationSession :=
  { session_id := "sA", title := "tA", created_at := ⟨0⟩, last_updated := ⟨0⟩ }

/-- An empty repository-service state. -/
def repo0 : RepoServiceState := ⟨[], []⟩

/-- The session created by the domain service from `repo0` with fresh id
uuid-0 at instant 0. -/
def sessT : ConversationSession :=
  { session_id := "uuid-0", title := "Test Session",
    created_at := ⟨0⟩, last_updated := ⟨0⟩ }

/-- The repository-service state right after creating `sessT`. -/
def repo1 : RepoServiceState :=
  ⟨FileConversationRepository.save_session [] sessT, []⟩

/-- The event-type set named by the spec (modelled from the spec's words in
section 3, for comparison against `validEventTypes` from the source). -/
def specCanonicalEventTypes : List String :=
  ["message", "title", "plan", "step", "tool", "error", "done",
   "session_created", "message_received", "message_sent", "tool_invoked",
   "shell_executed", "file_operation", "status_changed"]

/-- The string of n copies of the letter a. -/
def manyA (n : Nat) : String := String.mk (List.replicate n 'a')

theorem manyA_ne_empty (n : Nat) : manyA (n + 1) ≠ "" := by
  intro h
  have hd := congrArg String.data h
  simp [manyA, List.replicate_succ] at hd

theorem pyStripFalsy_manyA_succ (n : Nat) :
    pyStripFalsy (manyA (n + 1)) = false := by
  have ha : 'a'.isWhitespace = false := rfl
  simp [pyStripFalsy, manyA, List.replicate_succ, List.all_cons, ha]

theorem manyA_length (n : Nat) : (manyA n).length = n := by
  simp [manyA, String.length]

/- ===== C1 ===== -/

/-- C1: the stop operation can never succeed on an existing session, because
`update_status("stopped")` constructs `Status("stopped")` and the status
whitelist does not contain stopped.  Concretely: create a session through the
domain service, then `stop_session` on its id raises `ValueError` instead of
stopping and persisting it. -/
theorem C1_stop_session_raises :
    ConversationRepositoryService.create_session repo0 "Test Session" "uuid-0" 0 =
      .ok (sessT, repo1) ∧
    "stopped" ∉ validStatuses ∧
    Status.validate "stopped" = .error (.valueError
      "Status must be one of: [\x27pending\x27, \x27running\x27, \x27completed\x27, \x27failed\x27, \x27cancelled\x27]") ∧
    ConversationRepositoryService.stop_session repo1 "uuid-0" 1 =
      .error (.valueError
        "Status must be one of: [\x27pending\x27, \x27running\x27, \x27completed\x27, \x27failed\x27, \x27cancelled\x27]") := by
  refine ⟨by decide, by decide, rfl, by decide⟩

/- ===== C3 ===== -/

/-- C3 counterexample: session_created is in the canonical set the claim
names, yet `add_event` rejects it with a `ValueError` — the aggregate
validates against the seven-element whitelist only. -/
theorem C3_counterexample :
    "session_created" ∈ specCanonicalEventTypes ∧
    sessA.add_event "session_created" [] "e1" 1 =
      .error (.valueError
        "Event type must be one of: [\x27message\x27, \x27title\x27, \x27plan\x27, \x27step\x27, \x27tool\x27, \x27error\x27, \x27done\x27]") := by
  exact ⟨by decide, by decide⟩

/-- C3 (amended): `add_event` succeeds and appends exactly one event iff the
event type is in the seven-element whitelist
{message, title, plan, step, tool, error, done}; any other type fails with a
`ValueError`, leaving the aggregate unchanged (the exception propagates
before any mutation). -/
theorem C3_add_event_amended (s : ConversationSession) (etype : String)
    (data : PyDict) (eid : String) (now : Nat) :
    (etype ∈ validEventTypes →
      s.add_event etype data eid now =
        .ok ({ s with
                 events := s.events ++ [⟨eid, s.session_id, etype, data, ⟨now⟩⟩],
                 last_updated := ⟨now⟩ },
             ⟨eid, s.session_id, etype, data, ⟨now⟩⟩)) ∧
    (etype ∉ validEventTypes →
      s.add_event etype data eid now =
        .error (.valueError
          "Event type must be one of: [\x27message\x27, \x27title\x27, \x27plan\x27, \x27step\x27, \x27tool\x27, \x27error\x27, \x27done\x27]")) := by
  constructor
  · intro h
    simp [ConversationSession.add_event, Event.mkChecked, h, Bind.bind,
      Except.bind]
  · intro h
    simp [ConversationSession.add_event, Event.mkChecked, h, Bind.bind,
      Except.bind]

/-- Witness for C3: a valid type appends one event, an unknown type fails. -/
theorem C3_add_event_amended_witness :
    sessA.add_event "message" [] "e1" 1 =
      .ok ({ sessA with
               events := sessA.events ++
                 [⟨"e1", sessA.session_id, "message", [], ⟨1⟩⟩],
               last_updated := ⟨1⟩ },
           ⟨"e1", sessA.session_id, "message", [], ⟨1⟩⟩) ∧
    sessA.add_event "bogus" [] "e1" 1 =
      .error (.valueError
        "Event type must be one of: [\x27message\x27, \x27title\x27, \x27plan\x27, \x27step\x27, \x27tool\x27, \x27error\x27, \x27done\x27]") :=
  ⟨(C3_add_event_amended sessA "message" [] "e1" 1).1 (by decide),
   (C3_add_event_amended sessA "bogus" [] "e1" 1).2 (by decide)⟩

/- ===== C8 ===== -/

/-- C8: content validation bounds — the empty string fails, 10001 characters
fail, exactly 10000 characters succeed, and the validation happens while the
`Message` is constructed, before any append: whenever content validation
fails, `add_message` raises and the messages list is untouched (the error is
returned before a new aggregate exists). -/
theorem C8_content_bounds :
    Content.validate "" = .error (.valueError "Content cannot be empty") ∧
    Content.validate (manyA 10001) = .error (.valueError "Content too long") ∧
    Content.validate (manyA 10000) = .ok () ∧
    ∀ (s : ConversationSession) (role : String) (md : PyDict) (msgId : String)
      (now : Nat) (c : String) (err : PyErr),
      Content.validate c = .error err →
      ∃ err', s.add_message role c md msgId now = .error err' := by
  refine ⟨rfl, ?_, ?_, ?_⟩
  · have h1 := manyA_ne_empty 10000
    have h2 := pyStripFalsy_manyA_succ 10000
    norm_num at h1 h2
    have hA : ¬(manyA 10001 = "" ∨ pyStripFalsy (manyA 10001) = true) := by
      rintro (h | h)
      · exact h1 h
      · rw [h2] at h; cases h
    have hB : (manyA 10001).length > 10000 := by rw [manyA_length]; omega
    unfold Content.validate
    rw [if_neg hA, if_pos hB]
  · have h1 := manyA_ne_empty 9999
    have h2 := pyStripFalsy_manyA_succ 9999
    norm_num at h1 h2
    have hA : ¬(manyA 10000 = "" ∨ pyStripFalsy (manyA 10000) = true) := by
      rintro (h | h)
      · exact h1 h
      · rw [h2] at h; cases h
    have hB : ¬((manyA 10000).length > 10000) := by rw [manyA_length]; omega
    unfold Content.validate
    rw [if_neg hA, if_neg hB]
  · intro s role md msgId now c err hcv
    unfold ConversationSession.add_message Message.mkChecked
    by_cases hr : role ∈ validRoles
    · exact ⟨err, by simp [Role.validate, hr, hcv, Bind.bind, Except.bind]⟩
    · exact ⟨.valueError
        "Role must be one of: [\x27user\x27, \x27assistant\x27, \x27system\x27]",
        by simp [Role.validate, hr, Bind.bind, Except.bind]⟩

/-- Witness for C8: the failing-content branch at a concrete input. -/
theorem C8_content_bounds_witness :
    Content.validate "" = .error (.valueError "Content cannot be empty") ∧
    ∃ err', sessA.add_message "user" "" [] "m1" 1 = .error err' :=
  ⟨C8_content_bounds.1,
   C8_content_bounds.2.2.2 sessA "user" [] "m1" 1 ""
     (.valueError "Content cannot be empty") (by decide)⟩

/- ===== C10 ===== -/

/-- C10: any non-empty all-whitespace content fails construction with the
empty-content `ValueError` (Python checks `not value.strip()`), so
`add_message` with such content always raises and appends nothing — the
error is returned before a mutated aggregate exists. -/
theorem C10_whitespace_content (w : String) (hne : w ≠ "")
    (hws : pyStripFalsy w = true) :
    Content.validate w = .error (.valueError "Content cannot be empty") ∧
    ∀ (s : ConversationSession) (role : String) (md : PyDict) (msgId : String)
      (now : Nat), ∃ err, s.add_message role w md msgId now = .error err := by
  have hval : Content.validate w =
      .error (.valueError "Content cannot be empty") := by
    unfold Content.validate
    rw [if_pos (Or.inr hws)]
  refine ⟨hval, fun s role md msgId now => ?_⟩
  unfold ConversationSession.add_message Message.mkChecked
  by_cases hr : role ∈ validRoles
  · exact ⟨.valueError "Content cannot be empty",
      by simp [Role.validate, hr, hval, Bind.bind, Except.bind]⟩
  · exact ⟨.valueError
      "Role must be one of: [\x27user\x27, \x27assistant\x27, \x27system\x27]",
      by simp [Role.validate, hr, Bind.bind, Except.bind]⟩

/-- Witness for C10 at the three-space string. -/
theorem C10_whitespace_content_witness :
    Content.validate "   " = .error (.valueError "Content cannot be empty") ∧
    ∃ err, sessA.add_message "user" "   " [] "m1" 1 = .error err :=
  ⟨(C10_whitespace_content "   " (by decide) (by decide)).1,
   (C10_whitespace_content "   " (by decide) (by decide)).2 sessA "user" []
     "m1" 1⟩

/- ===== C6 / C9 fixtures ===== -/

/-- A message_received event carrying content hi.  No such event can be built
through `Event.__post_init__` (the type is outside the whitelist); the value
exists here as the raw aggregate state the claim presupposes. -/
def evHi : Event :=
  ⟨"e1", "s6", "message_received", [("content", .str "hi")], ⟨1⟩⟩

/-- A message_sent event carrying content hello. -/
def evHello : Event :=
  ⟨"e2", "s6", "message_sent", [("content", .str "hello")], ⟨2⟩⟩

/-- A session whose event log is exactly [message_received(hi),
message_sent(hello)]. -/
def sess6 : ConversationSession :=
  { session_id := "s6", title := "t6", events := [evHi, evHello],
    created_at := ⟨0⟩, last_updated := ⟨0⟩ }

/-- An application state with `sess6` sitting in the domain-service cache. -/
def st6 : AppState := ⟨⟨[], [("s6", sess6)]⟩, 0, 0⟩

/-- Serializing any non-empty event list in the application-layer
`get_session` fails at the first event: the timestamp is serialized by
calling `isoformat` on the `Timestamp` wrapper, which has no such method. -/
theorem serializeEventsApp_cons (e : Event) (es : List Event) :
    serializeEventsApp (e :: es) =
      .error (.attributeError
        "\x27Timestamp\x27 object has no attribute \x27isoformat\x27") := rfl

/- ===== C6 ===== -/

/-- C6: on the session whose event log is [message_received(hi),
message_sent(hello)], GetSessionHistory does not return the two-entry
history: the upstream `get_session` raises `AttributeError` while serializing
the events (`event.timestamp.isoformat()` on the wrapper) and the handler
passes the code-500 envelope through.  The second conjunct shows the
projection itself is exactly the claimed filter/map, so the single
serialization slip is all that blocks the claimed behavior. -/
theorem C6_history_blocked_by_isoformat :
    (GetSessionHistoryQueryHandler.handle st6 "s6").1 =
      ⟨500,
       "Failed to get session: \x27Timestamp\x27 object has no attribute \x27isoformat\x27",
       Option.none⟩ ∧
    historyOfEvents
        [⟨"e1", "message_received", [("content", .str "hi")], "T1"⟩,
         ⟨"e2", "message_sent", [("content", .str "hello")], "T2"⟩] =
      [⟨"user", .str "hi", "T1"⟩, ⟨"assistant", .str "hello", "T2"⟩] := by
  exact ⟨by decide, by decide⟩

/- ===== C9 ===== -/

/-- C9: for an existing session, the application-layer GetSession returns
code 0 exactly when the session has no events, and returns code 500 whenever
the events list is non-empty, because serializing an event calls
`isoformat()` directly on the `Timestamp` wrapper, which has no such
method. -/
theorem C9_get_session_500_on_events (st : AppState) (sid : String)
    (sess : ConversationSession) (repo' : RepoServiceState)
    (hsid : sid ≠ "")
    (hget : ConversationRepositoryService.get_session st.repo sid st.clock =
      .ok (some sess, repo')) :
    ((ConversationApplicationService.get_session st sid).1.code = 0 ↔
      sess.events = []) ∧
    (sess.events ≠ [] →
      (ConversationApplicationService.get_session st sid).1.code = 500) := by
  have hmk : mkConversationId sid = .ok sid := by
    unfold mkConversationId
    rw [if_neg hsid]
  unfold ConversationApplicationService.get_session
  simp only [hmk, hget]
  cases hev : sess.events with
  | nil => simp [serializeEventsApp]
  | cons e es => rw [serializeEventsApp_cons]; simp

/-- Witness for C9: the concrete session `sess6` has events, so GetSession
answers 500. -/
theorem C9_get_session_500_on_events_witness :
    (ConversationApplicationService.get_session st6 "s6").1.code = 500 :=
  (C9_get_session_500_on_events st6 "s6" sess6 st6.repo (by decide)
    (by decide)).2 (by decide)

/- ===== C2 ===== -/

/-- An initial application state: empty store, empty cache. -/
def st0 : AppState := ⟨⟨[], []⟩, 0, 0⟩

/-- C2 counterexample: from the initial state, CreateSession answers code 0
with session id uuid-0, and the immediately following GetSession answers
code 0 — but its events list is empty: it contains no session_created
record.  The session_created event was rejected by the event-type whitelist
(and swallowed), and was in any case attempted only on the unpersisted,
uncached in-memory object after the save. -/
theorem C2_counterexample :
    (ConversationApplicationService.create_session st0 "New Conversation").1.code = 0 ∧
    (ConversationApplicationService.create_session st0 "New Conversation").1.data =
      some ⟨"uuid-0"⟩ ∧
    (ConversationApplicationService.get_session
        (ConversationApplicationService.create_session st0 "New Conversation").2
        "uuid-0").1 =
      ⟨0, "success", some ⟨"uuid-0", "New Conversation", []⟩⟩ := by
  exact ⟨by decide, by decide, by decide⟩

/-- C2 (amended): for every title and every state in which the fresh id is
not already cached, CreateSession returns code 0 with a session id such that
the immediately following GetSession returns code 0 — with an empty events
list (no session_created-equivalent record is recorded). -/
theorem C2_create_then_get_amended (st : AppState) (title : String)
    (hfresh : dictLookup st.repo.cache (genId st.gen) = Option.none) :
    (ConversationApplicationService.create_session st title).1.code = 0 ∧
    (ConversationApplicationService.create_session st title).1.data =
      some ⟨genId st.gen⟩ ∧
    (ConversationApplicationService.get_session
        (ConversationApplicationService.create_session st title).2
        (genId st.gen)).1 =
      ⟨0, "success", some ⟨genId st.gen, title, []⟩⟩ := by
  have hmk : mkConversationId (genId st.gen) = .ok (genId st.gen) := by
    unfold mkConversationId
    rw [if_neg (genId_ne_empty st.gen)]
  have hp : Status.validate "pending" = .ok () := rfl
  have hvalid : ConversationSession.Valid
      { session_id := genId st.gen, title := title, status := "pending",
        created_at := ⟨st.clock⟩, last_updated := ⟨st.clock⟩ } := by
    refine ⟨genId_ne_empty st.gen, ?_, ?_, ?_⟩
    · show "pending" ∈ validStatuses
      decide
    · intro m hm; exact absurd hm (List.not_mem_nil m)
    · intro e he; exact absurd he (List.not_mem_nil e)
  have hcr : ConversationRepositoryService.create_session st.repo title
      (genId st.gen) st.clock =
      .ok ({ session_id := genId st.gen, title := title, status := "pending",
             created_at := ⟨st.clock⟩, last_updated := ⟨st.clock⟩ },
           { st.repo with
               store := FileConversationRepository.save_session st.repo.store
                 { session_id := genId st.gen, title := title,
                   status := "pending", created_at := ⟨st.clock⟩,
                   last_updated := ⟨st.clock⟩ } }) := by
    simp [ConversationRepositoryService.create_session, hmk, hp, Bind.bind,
      Except.bind]
  have hload : FileConversationRepository.load_session
      (FileConversationRepository.save_session st.repo.store
        { session_id := genId st.gen, title := title, status := "pending",
          created_at := ⟨st.clock⟩, last_updated := ⟨st.clock⟩ })
      (genId st.gen) (st.clock + 1) =
      .ok (some (reloadSession
        { session_id := genId st.gen, title := title, status := "pending",
          created_at := ⟨st.clock⟩, last_updated := ⟨st.clock⟩ }
        (st.clock + 1))) :=
    load_after_save st.repo.store _ (st.clock + 1) hvalid
  unfold ConversationApplicationService.create_session
  simp only [hcr]
  refine ⟨trivial, trivial, ?_⟩
  unfold ConversationApplicationService.get_session
    ConversationRepositoryService.get_session
  simp only [hmk, hfresh, hload, reloadSession, List.map_nil,
    serializeEventsApp, Bind.bind, Except.bind]

/-- Witness for C2 (amended) at the initial state. -/
theorem C2_create_then_get_amended_witness :
    (ConversationApplicationService.create_session st0 "New Conversation").1.code = 0 ∧
    (ConversationApplicationService.create_session st0 "New Conversation").1.data =
      some ⟨genId st0.gen⟩ ∧
    (ConversationApplicationService.get_session
        (ConversationApplicationService.create_session st0 "New Conversation").2
        (genId st0.gen)).1 =
      ⟨0, "success", some ⟨genId st0.gen, "New Conversation", []⟩⟩ :=
  C2_create_then_get_amended st0 "New Conversation" rfl

/- ===== C4 ===== -/

/-- Successful `add_message`: both validations pass, so exactly one message
is appended and `last_updated` refreshed. -/
theorem add_message_ok (s : ConversationSession) (role content : String)
    (md : PyDict) (mid : String) (now : Nat) (hrole : role ∈ validRoles)
    (hc : Content.validate content = .ok ()) :
    s.add_message role content md mid now =
      .ok ({ s with
               messages := s.messages ++
                 [⟨mid, s.session_id, role, content, ⟨now⟩, md⟩],
               last_updated := ⟨now⟩ },
           ⟨mid, s.session_id, role, content, ⟨now⟩, md⟩) := by
  simp [ConversationSession.add_message, Message.mkChecked, Role.validate,
    hrole, hc, Bind.bind, Except.bind]

/-- Firing a message_received event always fails silently: the type is not in
the event whitelist, `add_event` raises, `create_event` swallows the error
and returns `False` with the session unchanged. -/
theorem create_event_message_received (s : ConversationSession)
    (data : PyDict) (eid : String) (now : Nat) :
    EventManagementService.create_event s "message_received" data eid now =
      (false, s) := by
  simp [EventManagementService.create_event, ConversationSession.add_event,
    Event.mkChecked, Bind.bind, Except.bind,
    show ¬ ("message_received" ∈ validEventTypes) from by decide]

/-- A plain session used for the SendMessage scenarios. -/
def sess4 : ConversationSession :=
  { session_id := "s4", title := "t4", created_at := ⟨0⟩, last_updated := ⟨0⟩ }

/-- State with `sess4` saved in the store only (cache cold). -/
def st4 : AppState :=
  ⟨⟨FileConversationRepository.save_session [] sess4, []⟩, 0, 0⟩

/-- State with `sess4` sitting in the cache. -/
def st4c : AppState := ⟨⟨[], [("s4", sess4)]⟩, 0, 0⟩

set_option maxRecDepth 100000 in
/-- C4 counterexample: a SendMessage that answers code 0 leaves the store
byte-for-byte unchanged — the durable record for the session still holds no
messages at all, contradicting persisted-both-messages. -/
theorem C4_counterexample :
    (ConversationApplicationService.process_chat_message st4 "s4" "hi" 0
      Option.none).1.code = 0 ∧
    (ConversationApplicationService.process_chat_message st4 "s4" "hi" 0
      Option.none).2.repo.store = st4.repo.store ∧
    (dictLookup st4.repo.store "s4").map (fun r => r.messages) = some [] := by
  exact ⟨by decide, by decide, by decide⟩

/-- C4 (amended): for an existing session, a code-0 SendMessage appends the
user message and the assistant message to the in-memory aggregate — visible
through the domain-service cache — but never persists: the store is exactly
what it was before the call, and the events list is also unchanged (the
message_received event is rejected and swallowed). -/
theorem C4_process_chat_amended (st : AppState) (sid message : String)
    (ts : Int) (eid : Option String) (sess : ConversationSession)
    (repo1 : RepoServiceState)
    (hsid : sid ≠ "")
    (hget : ConversationRepositoryService.get_session st.repo sid st.clock =
      .ok (some sess, repo1))
    (hc : Content.validate message = .ok ())
    (hr : Content.validate (generate_ai_response message) = .ok ()) :
    (ConversationApplicationService.process_chat_message st sid message ts
      eid).1.code = 0 ∧
    (ConversationApplicationService.process_chat_message st sid message ts
      eid).2.repo.store = st.repo.store ∧
    ∃ s', dictLookup (ConversationApplicationService.process_chat_message st
        sid message ts eid).2.repo.cache sid = some s' ∧
      s'.messages = sess.messages ++
        [⟨genId st.gen, sess.session_id, "user", message, ⟨st.clock⟩, []⟩,
         ⟨genId (st.gen + 2), sess.session_id, "assistant",
          generate_ai_response message, ⟨st.clock⟩, []⟩] ∧
      s'.events = sess.events := by
  have hmk : mkConversationId sid = .ok sid := by
    unfold mkConversationId
    rw [if_neg hsid]
  have hu := add_message_ok sess "user" message [] (genId st.gen) st.clock
    (by decide) hc
  have ha := add_message_ok
    { sess with
        messages := sess.messages ++
          [⟨genId st.gen, sess.session_id, "user", message, ⟨st.clock⟩, []⟩],
        last_updated := ⟨st.clock⟩ }
    "assistant" (generate_ai_response message) [] (genId (st.gen + 2))
    st.clock (by decide) hr
  have hstore := get_session_store_eq st.repo sid st.clock (some sess) repo1
    hget
  unfold ConversationApplicationService.process_chat_message
  simp only [hmk, hget, hu, create_event_message_received, ha]
  refine ⟨trivial, hstore, ?_⟩
  refine ⟨_, dictLookup_dictSet_self repo1.cache sid _, ?_, rfl⟩
  simp

/-- Witness for C4 (amended) with `sess4` in the cache. -/
theorem C4_process_chat_amended_witness :
    (ConversationApplicationService.process_chat_message st4c "s4" "hi" 0
      Option.none).1.code = 0 ∧
    (ConversationApplicationService.process_chat_message st4c "s4" "hi" 0
      Option.none).2.repo.store = st4c.repo.store ∧
    ∃ s', dictLookup (ConversationApplicationService.process_chat_message st4c
        "s4" "hi" 0 Option.none).2.repo.cache "s4" = some s' ∧
      s'.messages = sess4.messages ++
        [⟨genId st4c.gen, sess4.session_id, "user", "hi", ⟨st4c.clock⟩, []⟩,
         ⟨genId (st4c.gen + 2), sess4.session_id, "assistant",
          generate_ai_response "hi", ⟨st4c.clock⟩, []⟩] ∧
      s'.events = sess4.events :=
  C4_process_chat_amended st4c "s4" "hi" 0 Option.none sess4 st4c.repo
    (by decide) (by decide) (by decide) (by decide)

/- ===== C5 ===== -/

/-- C5: for every saveable (construction-valid) session, saving it and then
loading its id reconstructs a session whose messages agree with the originals
in role, content and timestamp, and whose events agree in type and data; and
loading the same stored record again — at any later instant — yields the same
messages and events (idempotent under repeated load). -/
theorem C5_save_load_round_trip (store : Store) (s : ConversationSession)
    (hv : s.Valid) (now : Nat) :
    ∃ s', FileConversationRepository.load_session
        (FileConversationRepository.save_session store s) s.session_id now =
          .ok (some s') ∧
      s'.messages.map (fun m => (m.role, m.content, m.timestamp)) =
        s.messages.map (fun m => (m.role, m.content, m.timestamp)) ∧
      s'.events.map (fun e => (e.event_type, e.data)) =
        s.events.map (fun e => (e.event_type, e.data)) ∧
      ∀ now2 : Nat, ∃ s2, FileConversationRepository.load_session
          (FileConversationRepository.save_session store s) s.session_id
            now2 = .ok (some s2) ∧
        s2.messages = s'.messages ∧ s2.events = s'.events := by
  refine ⟨reloadSession s now, load_after_save store s now hv, ?_, ?_, ?_⟩
  · simp only [reloadSession, List.map_map]
    rfl
  · simp only [reloadSession, List.map_map]
    rfl
  · intro now2
    exact ⟨reloadSession s now2, load_after_save store s now2 hv, rfl, rfl⟩

/-- A saveable session exercising every serialized collection: one message,
one event, one shell session, one file operation. -/
def sessRT : ConversationSession :=
  { session_id := "sR", title := "tR",
    messages := [⟨"m1", "sR", "user", "hi", ⟨5⟩, [("k", .str "v")]⟩],
    events := [⟨"e1", "sR", "message", [("x", .int 3)], ⟨6⟩⟩],
    shell_sessions := [⟨"sh1", "sR", Option.none, [⟨"p", "c", "o"⟩], ⟨1⟩, ⟨2⟩⟩],
    file_operations := [⟨"tmp-f", "sR", "write", some "x", ⟨3⟩⟩],
    created_at := ⟨0⟩, last_updated := ⟨0⟩ }

/-- Witness for C5 at a concrete populated session. -/
theorem C5_save_load_round_trip_witness :
    ∃ s', FileConversationRepository.load_session
        (FileConversationRepository.save_session [] sessRT)
        sessRT.session_id 7 = .ok (some s') ∧
      s'.messages.map (fun m => (m.role, m.content, m.timestamp)) =
        sessRT.messages.map (fun m => (m.role, m.content, m.timestamp)) ∧
      s'.events.map (fun e => (e.event_type, e.data)) =
        sessRT.events.map (fun e => (e.event_type, e.data)) ∧
      ∀ now2 : Nat, ∃ s2, FileConversationRepository.load_session
          (FileConversationRepository.save_session [] sessRT)
          sessRT.session_id now2 = .ok (some s2) ∧
        s2.messages = s'.messages ∧ s2.events = s'.events :=
  C5_save_load_round_trip [] sessRT (by decide) 7

/- ===== C7 ===== -/

/-- C7: file operations are serialized on save — the stored record carries
them all — but the loaded aggregate never rebuilds them: its
`file_operations` list is empty, while messages, events and shell sessions
are rebuilt. -/
theorem C7_file_operations_not_reloaded (store : Store)
    (s : ConversationSession) (hv : s.Valid) (hne : s.file_operations ≠ [])
    (now : Nat) :
    (dictLookup (FileConversationRepository.save_session store s)
        s.session_id = some (serializeSession s) ∧
      (serializeSession s).file_operations =
        s.file_operations.map serializeFileOperation ∧
      (serializeSession s).file_operations ≠ []) ∧
    ∃ s', FileConversationRepository.load_session
        (FileConversationRepository.save_session store s) s.session_id now =
          .ok (some s') ∧
      s'.file_operations = [] ∧
      s'.messages.map (fun m => (m.role, m.content, m.timestamp)) =
        s.messages.map (fun m => (m.role, m.content, m.timestamp)) ∧
      s'.events.map (fun e => (e.event_type, e.data)) =
        s.events.map (fun e => (e.event_type, e.data)) ∧
      s'.shell_sessions.map (fun sh =>
          (sh.shell_session_id, sh.console, sh.created_at, sh.last_updated)) =
        s.shell_sessions.map (fun sh =>
          (sh.shell_session_id, sh.console, sh.created_at, sh.last_updated)) := by
  refine ⟨⟨?_, rfl, ?_⟩,
    reloadSession s now, load_after_save store s now hv, rfl, ?_, ?_, ?_⟩
  · unfold FileConversationRepository.save_session
    exact dictLookup_dictSet_self store s.session_id (serializeSession s)
  · intro h
    simp only [serializeSession] at h
    exact hne (List.map_eq_nil_iff.mp h)
  · simp only [reloadSession, List.map_map]
    rfl
  · simp only [reloadSession, List.map_map]
    rfl
  · simp only [reloadSession, List.map_map]
    rfl

/-- Witness for C7 at the populated session `sessRT`. -/
theorem C7_file_operations_not_reloaded_witness :
    (dictLookup (FileConversationRepository.save_session [] sessRT)
        sessRT.session_id = some (serializeSession sessRT) ∧
      (serializeSession sessRT).file_operations =
        sessRT.file_operations.map serializeFileOperation ∧
      (serializeSession sessRT).file_operations ≠ []) ∧
    ∃ s', FileConversationRepository.load_session
        (FileConversationRepository.save_session [] sessRT)
        sessRT.session_id 7 = .ok (some s') ∧
      s'.file_operations = [] ∧
      s'.messages.map (fun m => (m.role, m.content, m.timestamp)) =
        sessRT.messages.map (fun m => (m.role, m.content, m.timestamp)) ∧
      s'.events.map (fun e => (e.event_type, e.data)) =
        sessRT.events.map (fun e => (e.event_type, e.data)) ∧
      s'.shell_sessions.map (fun sh =>
          (sh.shell_session_id, sh.console, sh.created_at, sh.last_updated)) =
        sessRT.shell_sessions.map (fun sh =>
          (sh.shell_session_id, sh.console, sh.created_at, sh.last_updated)) :=
  C7_file_operations_not_reloaded [] sessRT (by decide) (by decide) 7
